import Mathlib

/-!
Verification of the dock-door status board (`src/app.py`).

The Python program keeps a board of dock doors (two dicts `front` and `back`
mapping door number to a location code), a door-scoped truck-override dict
`door_truck_type`, and static reference data (`truck_by_location`,
`TRUCK_TYPES`, `DEFAULT_TRUCK`).  The mutation entry points are the
`update_location` and `override_truck` request handlers; persistence is an
append-only CSV log plus an optional Postgres row store.

This file shallowly embeds that program.  Python dicts become association
lists (`List (Nat × String)` and so on); dict lookup, in-place update,
insertion and `pop` become the `alookup`, `setKey`, `ovSet`, `ovRemove`
helpers below, which preserve CPython semantics (first/unique key wins,
insertion order kept, assignment to a fresh key appends).  Python string
methods `strip`, `upper`, `replace(" ", "")`, `isalnum`, `isdigit`, `int(...)`
become `pyStrip`, `pyUpper`, `removeSpaces`, `str_isalnum`, `str_isdigit`,
`strToNat`, restricted to the ASCII behaviour (every string the program and
its seed data manipulate is ASCII except the em-dash blank marker, on which
the two semantics agree).

All definitions are executable so that claims can be evaluated on concrete
inputs.
-/

/-- Python `str.strip()` whitespace class (ASCII part). -/
def pyIsSpace (c : Char) : Bool :=
  c == ' ' || c == '\t' || c == '\n' || c == '\r' || c == '\x0b' || c == '\x0c'

/-- Strip on the character list: drop leading and trailing whitespace. -/
def pyStripList (l : List Char) : List Char :=
  ((l.dropWhile pyIsSpace).reverse.dropWhile pyIsSpace).reverse

/-- Python `s.strip()`. -/
def pyStrip (s : String) : String :=
  ⟨pyStripList s.toList⟩

/-- Python `s.upper()` (ASCII letters). -/
def pyUpper (s : String) : String :=
  ⟨s.toList.map Char.toUpper⟩

/-- Python `str.isalnum` character class (ASCII letters and digits). -/
def pyIsAlnum (c : Char) : Bool :=
  c.isAlphanum

/-- Python `s.isalnum()`: nonempty and every character alphanumeric. -/
def str_isalnum (s : String) : Bool :=
  !s.toList.isEmpty && s.toList.all pyIsAlnum

/-- Python `s.isdigit()` (ASCII digits): nonempty and every character a digit. -/
def str_isdigit (s : String) : Bool :=
  !s.toList.isEmpty && s.toList.all Char.isDigit

/-- Python `s.replace(" ", "")`: remove every ASCII space. -/
def removeSpaces (s : String) : String :=
  ⟨s.toList.filter (fun c => c != ' ')⟩

/-- Python `int(s)` on a digit string. -/
def strToNat (s : String) : Nat :=
  s.toList.foldl (fun a c => a * 10 + (c.toNat - 48)) 0

/-- First-match lookup in an association list (Python dict `get`). -/
def alookup {α β : Type} [DecidableEq α] : List (α × β) → α → Option β
  | [], _ => none
  | p :: rest, k => if p.1 = k then some p.2 else alookup rest k

/-- Key membership in an association list (Python dict `in`). -/
def hasKey {α β : Type} [DecidableEq α] : List (α × β) → α → Bool
  | [], _ => false
  | p :: rest, k => if p.1 = k then true else hasKey rest k

/-- In-place update of every entry with the given key (Python dict
assignment to an existing key: value replaced, position kept). -/
def setKey {α β : Type} [DecidableEq α] (l : List (α × β)) (k : α) (v : β) :
    List (α × β) :=
  l.map (fun p => if p.1 = k then (k, v) else p)

/-- Python `dict.pop(k, None)`: drop every entry with the given key. -/
def ovRemove {α β : Type} [DecidableEq α] (l : List (α × β)) (k : α) :
    List (α × β) :=
  l.filter (fun p => if p.1 = k then false else true)

/-- Python dict assignment `d[k] = v`: replace in place when the key exists,
append at the end otherwise (CPython keeps insertion order). -/
def ovSet {α β : Type} [DecidableEq α] (l : List (α × β)) (k : α) (v : β) :
    List (α × β) :=
  if hasKey l k then setKey l k v else l ++ [(k, v)]

/-- The in-memory board state of `app.py`: the `front` and `back` partition
dicts (door number → location) and the `door_truck_type` override dict. -/
structure AppState where
  front : List (Nat × String)
  back : List (Nat × String)
  door_truck_type : List (Nat × String)
deriving DecidableEq, Repr

/-- Seed of the `front` dict in `app.py`. -/
def seedFront : List (Nat × String) :=
  [(1, "IND9"), (2, "XNJ2"), (3, "IB"), (4, "IB"), (5, "IB"), (6, "IB"),
   (7, "IB"), (8, "XMD2"), (9, "IB"), (10, "IB"), (11, "XPH7"), (12, "XLA3"),
   (13, "TEB9"), (14, "XCE1"), (15, "RDU2")]

/-- Seed of the `back` dict in `app.py` (doors 127 and 138 are blank
placeholders, stored as the em-dash marker). -/
def seedBack : List (Nat × String) :=
  [(122, "ABE8"), (123, "XME1"), (124, "SMF3"), (125, "VGT2"), (126, "AVP1"),
   (127, "—"), (128, "PHL4"), (129, "XCL1"), (130, "CHO1"), (131, "XAT3"),
   (132, "SWF2"), (133, "SCK4"), (134, "RMN3"), (135, "CMH3"), (136, "GYR3"),
   (137, "FTW1"), (138, "—"), (139, "HIA1")]

/-- The process-start state: seed partitions, empty override map
(`door_truck_type = {}`). -/
def seedState : AppState :=
  ⟨seedFront, seedBack, []⟩

/-- `truck_by_location` from `app.py`: static map location code → truck. -/
def truck_by_location : List (String × String) :=
  [("XME1", "JBHU"), ("SCK4", "JBHU"), ("XAT3", "AZNU"), ("FTW1", "JBHU"),
   ("VGT2", "XPOU"), ("XLA3", "JBHU"), ("GYR3", "JBHU"), ("SMF3", "JBHU"),
   ("CLOSED", ""), ("Empty Door", "")]

/-- `DEFAULT_TRUCK` from `app.py`. -/
def DEFAULT_TRUCK : String := "AZNG"

/-- `TRUCK_TYPES` from `app.py`. -/
def TRUCK_TYPES : List String := ["AZNG", "AZNU", "JBHU", "XPOU"]

/-- `normalize_loc` from `app.py`: `(loc or "").strip().upper()`. -/
def normalize_loc (loc : String) : String :=
  pyUpper (pyStrip loc)

/-- `is_blank_loc` from `app.py`:
`loc = (loc or "").strip(); return (loc == "") or (not loc.replace(" ", "").isalnum())`. -/
def is_blank_loc (loc : String) : Bool :=
  let l := pyStrip loc
  (l == "") || !(str_isalnum (removeSpaces l))

/-- `get_truck_for_door` from `app.py`, with the ambient `door_truck_type`
dict passed explicitly. -/
def get_truck_for_door (ov : List (Nat × String)) (door_num : Nat)
    (loc : String) : String :=
  if is_blank_loc loc then ""
  else
    match alookup ov door_num with
    | some t => t
    | none => (alookup truck_by_location (normalize_loc loc)).getD DEFAULT_TRUCK

/-- `all_doors` from `app.py`: union of the two partition dicts.  In every
reachable state the key sets of `front` and `back` are disjoint (they are
fixed at seed time), so the priority of the append is immaterial. -/
def all_doors (s : AppState) : List (Nat × String) :=
  s.front ++ s.back

/-- One record of the append-only CSV log, as written by
`append_update_to_csv` in `app.py` (`truck_type or ""`; the timestamp column
is not modelled — no claim depends on it). -/
structure AuditRecord where
  door : Nat
  location : String
  truck_type : String
deriving DecidableEq, Repr

/-- One upsert issued to the durable store by `save_door_to_db` in `app.py`
(a no-op when no store is configured; we record the row that would be
written). -/
structure DbUpsert where
  door : Nat
  location : String
  truck_type : Option String
deriving DecidableEq, Repr

/-- Result of one mutation entry point: the new board state, the audit
records appended to the CSV log during the call, and the durable-store
upserts issued during the call. -/
structure MutResult where
  state : AppState
  audit : List AuditRecord
  db : List DbUpsert
deriving DecidableEq, Repr

/-- The blank-canonicalization step of `update_location`:
`if loc in ["", "—", "---", "----"]: loc = "—"`. -/
def canonLoc (loc0 : String) : String :=
  if loc0 = "" || loc0 = "—" || loc0 = "---" || loc0 = "----" then "—" else loc0

/-- The state mutation of `update_location` once the door is known to exist:
write the location into the owning partition
(`if door_num in front: front[door_num] = loc else: back[door_num] = loc`),
then `if is_blank_loc(loc) and door_num in door_truck_type:
door_truck_type.pop(door_num, None)`. -/
def apply_update (s : AppState) (door_num : Nat) (loc : String) : AppState :=
  ⟨if hasKey s.front door_num then setKey s.front door_num loc else s.front,
   if hasKey s.front door_num then s.back else setKey s.back door_num loc,
   if is_blank_loc loc && hasKey s.door_truck_type door_num
     then ovRemove s.door_truck_type door_num else s.door_truck_type⟩

/-- The `update_location` request handler of `app.py`.
`door = form["door"].strip()`; `loc = normalize_loc(form["location"])`;
non-digit door or unknown door number is a silent no-op; otherwise
canonicalize the blank marker, mutate the board, and persist
(`save_door_to_db` with `door_truck_type.get(door_num)`, then
`append_update_to_csv` with the same truck value, `None` rendered as ""). -/
def update_location (s : AppState) (doorText locText : String) : MutResult :=
  let door := pyStrip doorText
  let loc0 := normalize_loc locText
  if str_isdigit door = false then ⟨s, [], []⟩
  else
    let door_num := strToNat door
    if hasKey (all_doors s) door_num = false then ⟨s, [], []⟩
    else
      let loc := canonLoc loc0
      let s2 := apply_update s door_num loc
      let trk := alookup s2.door_truck_type door_num
      ⟨s2, [⟨door_num, loc, trk.getD ""⟩], [⟨door_num, loc, trk⟩]⟩

/-- The `override_truck` request handler of `app.py`.
`door = form["door"].strip()`; `truck = form["truck"].strip().upper()`;
non-digit door or unknown door number is a silent no-op; a blank door
clears the override and persists; `truck == "AUTO"` clears the override and
persists; a recognized `TRUCK_TYPES` member sets the override and persists;
anything else falls through with no state change and no persistence. -/
def override_truck (s : AppState) (doorText truckText : String) : MutResult :=
  let door := pyStrip doorText
  let truck := pyUpper (pyStrip truckText)
  if str_isdigit door = false then ⟨s, [], []⟩
  else
    let door_num := strToNat door
    match alookup (all_doors s) door_num with
    | none => ⟨s, [], []⟩
    | some loc =>
      if is_blank_loc loc then
        ⟨⟨s.front, s.back, ovRemove s.door_truck_type door_num⟩,
         [⟨door_num, loc, ""⟩], [⟨door_num, loc, none⟩]⟩
      else if truck = "AUTO" then
        ⟨⟨s.front, s.back, ovRemove s.door_truck_type door_num⟩,
         [⟨door_num, loc, ""⟩], [⟨door_num, loc, none⟩]⟩
      else if TRUCK_TYPES.contains truck then
        ⟨⟨s.front, s.back, ovSet s.door_truck_type door_num truck⟩,
         [⟨door_num, loc, truck⟩], [⟨door_num, loc, some truck⟩]⟩
      else ⟨s, [], []⟩

/-- One user-visible mutation of the board, for reasoning about arbitrary
operation sequences. -/
inductive Op where
  | updateLocation (doorText locText : String)
  | overrideTruck (doorText truckText : String)

/-- Apply one mutation entry point to the board state. -/
def applyOp (s : AppState) (op : Op) : AppState :=
  match op with
  | .updateLocation d l => (update_location s d l).state
  | .overrideTruck d t => (override_truck s d t).state

/-- Run a sequence of mutations from a starting state. -/
def runOps (s : AppState) (ops : List Op) : AppState :=
  ops.foldl applyOp s

/-- The invariant of claim C6: no door whose stored location is blank has an
entry in the override map. -/
def blankNoOverride (s : AppState) : Prop :=
  ∀ d loc, alookup (all_doors s) d = some loc → is_blank_loc loc = true →
    alookup s.door_truck_type d = none

/-- Modelled from the spec: the startup replay of the append log belongs to
the CSV-log-persistence variant of this repository, which is not under
`src/` (the file there is the Postgres variant, whose startup is
`init_db_and_seed(); load_state_from_db()` with no log reading).  Per the
spec, when no durable store is configured startup is to "replay the entire
log in file order and apply last record per door wins to reconstruct Board
and override state from the compiled-in defaults".  One record is applied
like one logged mutation: the location is written into the partition owning
the door (records for unknown doors are ignored), and the truck column sets
the override, an empty truck meaning no override. -/
def applyLogRecord (s : AppState) (r : AuditRecord) : AppState :=
  ⟨if hasKey s.front r.door then setKey s.front r.door r.location else s.front,
   if !hasKey s.front r.door && hasKey s.back r.door
     then setKey s.back r.door r.location else s.back,
   if hasKey s.front r.door || hasKey s.back r.door then
     (if r.truck_type = "" then ovRemove s.door_truck_type r.door
      else ovSet s.door_truck_type r.door r.truck_type)
   else s.door_truck_type⟩

/-- Modelled from the spec: replay the entire log in file order (see
`applyLogRecord`). -/
def replayLog (s : AppState) (log : List AuditRecord) : AppState :=
  log.foldl applyLogRecord s

/-- The CSV header line written by `append_update_to_csv` and by the
empty-log fallback of `download_csv`. -/
def CSV_HEADER : String := "door,location,truck_type,updated_at\n"

/-- The no-durable-store path of the `download_csv` handler of `app.py`:
when the log file does not exist, create it containing just the header row,
then serve the file.  The first component is the log file content on disk
after the call, the second the served bytes. -/
def download_csv_no_store (logFile : Option String) : String × String :=
  match logFile with
  | none => (CSV_HEADER, CSV_HEADER)
  | some content => (content, content)

section SanityChecks

example : is_blank_loc "—" = true := by decide
example : is_blank_loc "" = true := by decide
example : is_blank_loc "  " = true := by decide
example : is_blank_loc "---" = true := by decide
example : is_blank_loc "Empty Door" = false := by decide
example : is_blank_loc "IND9" = false := by decide
example : normalize_loc " xme1 " = "XME1" := by decide
example : get_truck_for_door [] 8 "XMD2" = "AZNG" := by decide
example : get_truck_for_door [] 123 "XME1" = "JBHU" := by decide
example : get_truck_for_door [(123, "XPOU")] 123 "XME1" = "XPOU" := by decide
example : get_truck_for_door [(127, "JBHU")] 127 "—" = "" := by decide
example : get_truck_for_door [] 1 "CLOSED" = "" := by decide
example : str_isdigit " 1 " = false := by decide
example : str_isdigit "123" = true := by decide
example : strToNat "123" = 123 := by decide
example : alookup seedFront 8 = some "XMD2" := by decide
example : hasKey (all_doors seedState) 139 = true := by decide

-- update_location: round trip, blank canonicalization, override clearing
example :
    alookup (update_location seedState "1" " rdu2 ").state.front 1 = some "RDU2" := by
  decide
example :
    alookup (update_location seedState "1" " --- ").state.front 1 = some "—" := by
  decide
example :
    (update_location ⟨seedFront, seedBack, [(1, "JBHU")]⟩ "1" "").state.door_truck_type
      = [] := by
  decide
example : update_location seedState "abc" "RDU2" = ⟨seedState, [], []⟩ := by decide
example : update_location seedState "99" "RDU2" = ⟨seedState, [], []⟩ := by decide
-- the trimmed-door edge: " 1 " is not a digit string, yet the call mutates
example : (update_location seedState " 1 " "RDU2").state ≠ seedState := by decide
example :
    (update_location seedState "1" "rdu2").audit = [⟨1, "RDU2", ""⟩] := by decide

-- override_truck behaviour
example :
    (override_truck seedState "123" "xpou").state.door_truck_type
      = [(123, "XPOU")] := by decide
example :
    (override_truck ⟨seedFront, seedBack, [(123, "XPOU")]⟩ "123" " Auto ").state.door_truck_type
      = [] := by decide
-- unknown truck value on a non-blank door with an override: override kept
example :
    override_truck ⟨seedFront, seedBack, [(1, "JBHU")]⟩ "1" "XXXX"
      = ⟨⟨seedFront, seedBack, [(1, "JBHU")]⟩, [], []⟩ := by decide
-- blank door: override attempt clears and persists
example :
    (override_truck ⟨seedFront, seedBack, [(127, "JBHU")]⟩ "127" "JBHU").state.door_truck_type
      = [] := by decide

-- replay
example :
    alookup (all_doors (replayLog seedState
      [⟨1, "ABCD", "AZNU"⟩, ⟨1, "RDU2", "JBHU"⟩])) 1 = some "RDU2" := by decide
example :
    alookup (replayLog seedState
      [⟨1, "ABCD", "AZNU"⟩, ⟨1, "RDU2", "JBHU"⟩]).door_truck_type 1
      = some "JBHU" := by decide

end SanityChecks

/-! ### Association-list lemmas -/

theorem alookup_append {α β : Type} [DecidableEq α] (l1 l2 : List (α × β)) (k : α) :
    alookup (l1 ++ l2) k =
      match alookup l1 k with
      | some v => some v
      | none => alookup l2 k := by
  induction l1 with
  | nil => simp [alookup]
  | cons p rest ih =>
    by_cases h : p.1 = k
    · simp [alookup, h]
    · simp [alookup, h, ih]

theorem hasKey_eq_isSome {α β : Type} [DecidableEq α] (l : List (α × β)) (k : α) :
    hasKey l k = (alookup l k).isSome := by
  induction l with
  | nil => simp [hasKey, alookup]
  | cons p rest ih =>
    by_cases h : p.1 = k
    · simp [hasKey, alookup, h]
    · simp [hasKey, alookup, h, ih]

theorem alookup_eq_none_of_hasKey_false {α β : Type} [DecidableEq α]
    (l : List (α × β)) (k : α) (h : hasKey l k = false) : alookup l k = none := by
  rw [hasKey_eq_isSome] at h
  exact Option.not_isSome_iff_eq_none.mp (by simp [h])

theorem hasKey_append {α β : Type} [DecidableEq α] (l1 l2 : List (α × β)) (k : α) :
    hasKey (l1 ++ l2) k = (hasKey l1 k || hasKey l2 k) := by
  induction l1 with
  | nil => simp [hasKey]
  | cons p rest ih =>
    by_cases h : p.1 = k
    · simp [hasKey, h]
    · simp [hasKey, h, ih]

theorem alookup_setKey {α β : Type} [DecidableEq α] (l : List (α × β)) (k j : α) (v : β) :
    alookup (setKey l k v) j =
      if j = k then (if hasKey l k then some v else none) else alookup l j := by
  induction l with
  | nil => by_cases h : j = k <;> simp [setKey, alookup, hasKey, h]
  | cons p rest ih =>
    by_cases hp : p.1 = k
    · by_cases hj : j = k
      · simp [setKey, alookup, hasKey, hp, hj]
      · have hkj : ¬ (k = j) := fun hh => hj hh.symm
        simp [setKey, alookup, hasKey, hp, hj, hkj] at ih ⊢
        exact ih
    · by_cases hj : j = k
      · have hpj : ¬ (p.1 = j) := fun hh => hp (hh.trans hj)
        simp [setKey, alookup, hasKey, hp, hj, hpj] at ih ⊢
        exact ih
      · simp [setKey, alookup, hasKey, hp, hj] at ih ⊢
        simp [ih]

theorem hasKey_setKey {α β : Type} [DecidableEq α] (l : List (α × β)) (k j : α) (v : β) :
    hasKey (setKey l k v) j = hasKey l j := by
  induction l with
  | nil => simp [setKey, hasKey]
  | cons p rest ih =>
    by_cases hp : p.1 = k
    · by_cases hj : j = k
      · simp [setKey, hasKey, hp, hj]
      · have hkj : ¬ (k = j) := fun hh => hj hh.symm
        simp [setKey, hasKey, hp, hj, hkj] at ih ⊢
        exact ih
    · by_cases hj : p.1 = j
      · have hjk : ¬ (j = k) := fun hh => hp (hj.trans hh)
        simp [setKey, hasKey, hp, hj, hjk]
      · simp [setKey, hasKey, hp, hj] at ih ⊢
        simp [ih]

theorem alookup_ovRemove {α β : Type} [DecidableEq α] (l : List (α × β)) (k j : α) :
    alookup (ovRemove l k) j = if j = k then none else alookup l j := by
  induction l with
  | nil => by_cases h : j = k <;> simp [ovRemove, alookup, h]
  | cons p rest ih =>
    by_cases hp : p.1 = k
    · by_cases hj : j = k
      · simp [ovRemove, alookup, hp, hj] at ih ⊢
        exact ih
      · have hkj : ¬ (k = j) := fun hh => hj hh.symm
        simp [ovRemove, alookup, hp, hj, hkj] at ih ⊢
        exact ih
    · by_cases hj : j = k
      · have hpj : ¬ (p.1 = j) := fun hh => hp (hh.trans hj)
        simp [ovRemove, alookup, hp, hj, hpj] at ih ⊢
        exact ih
      · simp [ovRemove, alookup, hp, hj] at ih ⊢
        simp [ih]

theorem hasKey_ovRemove_self {α β : Type} [DecidableEq α] (l : List (α × β)) (k : α) :
    hasKey (ovRemove l k) k = false := by
  rw [hasKey_eq_isSome, alookup_ovRemove]
  simp

theorem alookup_ovSet {α β : Type} [DecidableEq α] (l : List (α × β)) (k j : α) (v : β) :
    alookup (ovSet l k v) j = if j = k then some v else alookup l j := by
  cases hk : hasKey l k with
  | true =>
    simp only [ovSet, hk, if_true]
    rw [alookup_setKey, hk]
    by_cases hj : j = k <;> simp [hj]
  | false =>
    simp only [ovSet, hk, Bool.false_eq_true, if_false]
    rw [alookup_append]
    by_cases hj : j = k
    · subst hj
      rw [alookup_eq_none_of_hasKey_false l j hk]
      simp [alookup]
    · have hkj : ¬ (k = j) := fun hh => hj hh.symm
      cases h : alookup l j <;> simp [alookup, hj, hkj, h]

theorem hasKey_ovSet_self {α β : Type} [DecidableEq α] (l : List (α × β)) (k : α) (v : β) :
    hasKey (ovSet l k v) k = true := by
  rw [hasKey_eq_isSome, alookup_ovSet]
  simp

theorem setKey_setKey {α β : Type} [DecidableEq α] (l : List (α × β)) (k : α) (v w : β) :
    setKey (setKey l k v) k w = setKey l k w := by
  induction l with
  | nil => simp [setKey]
  | cons p rest ih =>
    by_cases hp : p.1 = k
    · simp only [setKey, List.map_cons] at ih ⊢
      simp [hp, ih]
    · simp only [setKey, List.map_cons] at ih ⊢
      simp [hp, ih]

theorem setKey_of_hasKey_false {α β : Type} [DecidableEq α] (l : List (α × β)) (k : α) (v : β)
    (h : hasKey l k = false) : setKey l k v = l := by
  induction l with
  | nil => simp [setKey]
  | cons p rest ih =>
    by_cases hp : p.1 = k
    · simp [hasKey, hp] at h
    · simp [hasKey, hp] at h
      simp [setKey, hp] at ih ⊢
      exact ih h

theorem ovRemove_ovRemove {α β : Type} [DecidableEq α] (l : List (α × β)) (k : α) :
    ovRemove (ovRemove l k) k = ovRemove l k := by
  induction l with
  | nil => simp [ovRemove]
  | cons p rest ih =>
    by_cases hp : p.1 = k
    · simp only [ovRemove, List.filter_cons] at ih ⊢
      simp [hp, ih]
    · simp only [ovRemove, List.filter_cons] at ih ⊢
      simp [hp, ih]

theorem setKey_append {α β : Type} [DecidableEq α] (l1 l2 : List (α × β)) (k : α) (v : β) :
    setKey (l1 ++ l2) k v = setKey l1 k v ++ setKey l2 k v := by
  simp [setKey]

theorem setKey_ovSet {α β : Type} [DecidableEq α] (l : List (α × β)) (k : α) (v : β) :
    setKey (ovSet l k v) k v = ovSet l k v := by
  cases hk : hasKey l k with
  | true => simp only [ovSet, hk, if_true, setKey_setKey]
  | false =>
    simp only [ovSet, hk, Bool.false_eq_true, if_false]
    rw [setKey_append, setKey_of_hasKey_false l k v hk]
    simp [setKey]

theorem ovSet_ovSet {α β : Type} [DecidableEq α] (l : List (α × β)) (k : α) (v : β) :
    ovSet (ovSet l k v) k v = ovSet l k v := by
  have h := hasKey_ovSet_self l k v
  have h2 : ovSet (ovSet l k v) k v =
      if hasKey (ovSet l k v) k = true then setKey (ovSet l k v) k v
      else ovSet l k v ++ [(k, v)] := rfl
  rw [h2, h, if_pos rfl, setKey_ovSet]

/-! ### Behaviour of the board mutators -/

theorem apply_update_front_hasKey (s : AppState) (n : Nat) (loc : String) (j : Nat) :
    hasKey (apply_update s n loc).front j = hasKey s.front j := by
  cases hf : hasKey s.front n with
  | true => simp [apply_update, hf, hasKey_setKey]
  | false => simp [apply_update, hf]

theorem apply_update_back_hasKey (s : AppState) (n : Nat) (loc : String) (j : Nat) :
    hasKey (apply_update s n loc).back j = hasKey s.back j := by
  cases hf : hasKey s.front n with
  | true => simp [apply_update, hf]
  | false => simp [apply_update, hf, hasKey_setKey]

theorem apply_update_hasKey_all (s : AppState) (n : Nat) (loc : String) (j : Nat) :
    hasKey (all_doors (apply_update s n loc)) j = hasKey (all_doors s) j := by
  unfold all_doors
  rw [hasKey_append, hasKey_append, apply_update_front_hasKey, apply_update_back_hasKey]

theorem apply_update_ov (s : AppState) (n : Nat) (loc : String) (j : Nat) :
    alookup (apply_update s n loc).door_truck_type j =
      if j = n ∧ is_blank_loc loc = true then none
      else alookup s.door_truck_type j := by
  cases hb : is_blank_loc loc with
  | false => simp [apply_update, hb]
  | true =>
    cases hk : hasKey s.door_truck_type n with
    | true =>
      by_cases hj : j = n <;> simp [apply_update, hb, hk, alookup_ovRemove, hj]
    | false =>
      by_cases hj : j = n
      · subst hj
        simp [apply_update, hb, hk, alookup_eq_none_of_hasKey_false _ _ hk]
      · simp [apply_update, hb, hk, hj]

theorem apply_update_alldoors (s : AppState) (n : Nat) (loc : String)
    (h : hasKey (all_doors s) n = true) (j : Nat) :
    alookup (all_doors (apply_update s n loc)) j =
      if j = n then some loc else alookup (all_doors s) j := by
  unfold all_doors at h ⊢
  rw [hasKey_append] at h
  cases hf : hasKey s.front n with
  | true =>
    have h1 : (apply_update s n loc).front = setKey s.front n loc := by
      simp [apply_update, hf]
    have h2 : (apply_update s n loc).back = s.back := by
      simp [apply_update, hf]
    rw [h1, h2, alookup_append, alookup_append, alookup_setKey, hf]
    by_cases hj : j = n <;> simp [hj]
  | false =>
    have hb : hasKey s.back n = true := by
      rw [hf] at h
      simpa using h
    have h1 : (apply_update s n loc).front = s.front := by
      simp [apply_update, hf]
    have h2 : (apply_update s n loc).back = setKey s.back n loc := by
      simp [apply_update, hf]
    rw [h1, h2, alookup_append, alookup_append, alookup_setKey, hb]
    by_cases hj : j = n
    · subst hj
      rw [alookup_eq_none_of_hasKey_false _ _ hf]
      simp
    · simp [hj]

theorem apply_update_idem (s : AppState) (n : Nat) (loc : String) :
    apply_update (apply_update s n loc) n loc = apply_update s n loc := by
  cases hf : hasKey s.front n with
  | true =>
    cases hb : is_blank_loc loc with
    | true =>
      cases hk : hasKey s.door_truck_type n with
      | true =>
        simp [apply_update, hf, hb, hk, hasKey_setKey, setKey_setKey,
          hasKey_ovRemove_self]
      | false =>
        simp [apply_update, hf, hb, hk, hasKey_setKey, setKey_setKey]
    | false =>
      simp [apply_update, hf, hb, hasKey_setKey, setKey_setKey]
  | false =>
    cases hb : is_blank_loc loc with
    | true =>
      cases hk : hasKey s.door_truck_type n with
      | true =>
        simp [apply_update, hf, hb, hk, hasKey_setKey, setKey_setKey,
          hasKey_ovRemove_self]
      | false =>
        simp [apply_update, hf, hb, hk, hasKey_setKey, setKey_setKey]
    | false =>
      simp [apply_update, hf, hb, hasKey_setKey, setKey_setKey]

theorem update_location_state (s : AppState) (dt lt : String) :
    (update_location s dt lt).state =
      if str_isdigit (pyStrip dt) = false then s
      else if hasKey (all_doors s) (strToNat (pyStrip dt)) = false then s
      else apply_update s (strToNat (pyStrip dt)) (canonLoc (normalize_loc lt)) := by
  cases h1 : str_isdigit (pyStrip dt) with
  | false => simp [update_location, h1]
  | true =>
    cases h2 : hasKey (all_doors s) (strToNat (pyStrip dt)) with
    | false => simp [update_location, h1, h2]
    | true => simp [update_location, h1, h2]

theorem update_location_idem (s : AppState) (dt lt : String) :
    (update_location (update_location s dt lt).state dt lt).state =
      (update_location s dt lt).state := by
  cases hd : str_isdigit (pyStrip dt) with
  | false => simp [update_location_state, hd]
  | true =>
    cases hm : hasKey (all_doors s) (strToNat (pyStrip dt)) with
    | false => simp [update_location_state, hd, hm]
    | true =>
      have hm2 : hasKey
          (all_doors (apply_update s (strToNat (pyStrip dt))
            (canonLoc (normalize_loc lt)))) (strToNat (pyStrip dt)) = true := by
        rw [apply_update_hasKey_all]
        exact hm
      simp [update_location_state, hd, hm, hm2, apply_update_idem]

theorem override_truck_idem (s : AppState) (dt tt : String) :
    (override_truck (override_truck s dt tt).state dt tt).state =
      (override_truck s dt tt).state := by
  cases hd : str_isdigit (pyStrip dt) with
  | false => simp [override_truck, hd]
  | true =>
    cases hm : alookup (s.front ++ s.back) (strToNat (pyStrip dt)) with
    | none => simp [override_truck, all_doors, hd, hm]
    | some loc =>
      cases hb : is_blank_loc loc with
      | true =>
        simp [override_truck, all_doors, hd, hm, hb, ovRemove_ovRemove]
      | false =>
        by_cases ha : pyUpper (pyStrip tt) = "AUTO"
        · simp [override_truck, all_doors, hd, hm, hb, ha, ovRemove_ovRemove]
        · by_cases ht : pyUpper (pyStrip tt) ∈ TRUCK_TYPES
          · simp [override_truck, all_doors, hd, hm, hb, ha, ht, ovSet_ovSet]
          · simp [override_truck, all_doors, hd, hm, hb, ha, ht]

/-! ### Preservation of the blank-door invariant -/

theorem blankNoOverride_update (s : AppState) (dt lt : String)
    (h : blankNoOverride s) : blankNoOverride (update_location s dt lt).state := by
  rw [update_location_state]
  cases hd : str_isdigit (pyStrip dt) with
  | false => simpa using h
  | true =>
    cases hm : hasKey (all_doors s) (strToNat (pyStrip dt)) with
    | false => simpa using h
    | true =>
      simp only [hd, hm, Bool.true_eq_false, if_false]
      intro d loc' h1 h2
      rw [apply_update_alldoors s _ _ hm d] at h1
      rw [apply_update_ov]
      by_cases hdn : d = strToNat (pyStrip dt)
      · rw [if_pos hdn] at h1
        have hloc : canonLoc (normalize_loc lt) = loc' := by
          injection h1
        rw [if_pos ⟨hdn, by rw [hloc]; exact h2⟩]
      · rw [if_neg hdn] at h1
        rw [if_neg (by intro hc; exact hdn hc.1)]
        exact h d loc' h1 h2

theorem blankNoOverride_override (s : AppState) (dt tt : String)
    (h : blankNoOverride s) : blankNoOverride (override_truck s dt tt).state := by
  cases hd : str_isdigit (pyStrip dt) with
  | false => simpa [override_truck, hd] using h
  | true =>
    cases hm : alookup (s.front ++ s.back) (strToNat (pyStrip dt)) with
    | none => simpa [override_truck, all_doors, hd, hm] using h
    | some loc =>
      cases hb : is_blank_loc loc with
      | true =>
        have hst : (override_truck s dt tt).state =
            ⟨s.front, s.back, ovRemove s.door_truck_type (strToNat (pyStrip dt))⟩ := by
          simp [override_truck, all_doors, hd, hm, hb]
        rw [hst]
        intro d loc' h1 h2
        rw [alookup_ovRemove]
        by_cases hdn : d = strToNat (pyStrip dt)
        · rw [if_pos hdn]
        · rw [if_neg hdn]
          exact h d loc' h1 h2
      | false =>
        by_cases ha : pyUpper (pyStrip tt) = "AUTO"
        · have hst : (override_truck s dt tt).state =
              ⟨s.front, s.back, ovRemove s.door_truck_type (strToNat (pyStrip dt))⟩ := by
            simp [override_truck, all_doors, hd, hm, hb, ha]
          rw [hst]
          intro d loc' h1 h2
          rw [alookup_ovRemove]
          by_cases hdn : d = strToNat (pyStrip dt)
          · rw [if_pos hdn]
          · rw [if_neg hdn]
            exact h d loc' h1 h2
        · by_cases ht : pyUpper (pyStrip tt) ∈ TRUCK_TYPES
          · have hst : (override_truck s dt tt).state =
                ⟨s.front, s.back,
                 ovSet s.door_truck_type (strToNat (pyStrip dt)) (pyUpper (pyStrip tt))⟩ := by
              simp [override_truck, all_doors, hd, hm, hb, ha, ht]
            rw [hst]
            intro d loc' h1 h2
            rw [alookup_ovSet]
            by_cases hdn : d = strToNat (pyStrip dt)
            · have h1' : alookup (s.front ++ s.back) d = some loc' := h1
              rw [hdn, hm] at h1'
              have hll : loc = loc' := by injection h1'
              rw [← hll] at h2
              rw [h2] at hb
              exact absurd hb (by simp)
            · rw [if_neg hdn]
              exact h d loc' h1 h2
          · have hst : (override_truck s dt tt).state = s := by
              simp [override_truck, all_doors, hd, hm, hb, ha, ht]
            rw [hst]
            exact h

theorem blankNoOverride_applyOp (s : AppState) (op : Op)
    (h : blankNoOverride s) : blankNoOverride (applyOp s op) := by
  cases op with
  | updateLocation d l => exact blankNoOverride_update s d l h
  | overrideTruck d t => exact blankNoOverride_override s d t h

theorem blankNoOverride_runOps (ops : List Op) :
    ∀ s : AppState, blankNoOverride s → blankNoOverride (runOps s ops) := by
  induction ops with
  | nil => intro s h; exact h
  | cons op rest ih => intro s h; exact ih _ (blankNoOverride_applyOp s op h)

theorem seedState_blankNoOverride : blankNoOverride seedState := by
  intro d loc _ _
  rfl

/-! ### Replay of the append log -/

theorem applyLogRecord_front_hasKey (s : AppState) (r : AuditRecord) (j : Nat) :
    hasKey (applyLogRecord s r).front j = hasKey s.front j := by
  cases hf : hasKey s.front r.door with
  | true => simp [applyLogRecord, hf, hasKey_setKey]
  | false => simp [applyLogRecord, hf]

theorem applyLogRecord_back_hasKey (s : AppState) (r : AuditRecord) (j : Nat) :
    hasKey (applyLogRecord s r).back j = hasKey s.back j := by
  cases hf : hasKey s.front r.door with
  | true => simp [applyLogRecord, hf]
  | false =>
    cases hb : hasKey s.back r.door with
    | true => simp [applyLogRecord, hf, hb, hasKey_setKey]
    | false => simp [applyLogRecord, hf, hb]

theorem replayLog_front_hasKey (log : List AuditRecord) :
    ∀ (s : AppState) (j : Nat),
      hasKey (replayLog s log).front j = hasKey s.front j := by
  induction log with
  | nil => intro s j; rfl
  | cons r rest ih =>
    intro s j
    exact (ih (applyLogRecord s r) j).trans (applyLogRecord_front_hasKey s r j)

theorem replayLog_back_hasKey (log : List AuditRecord) :
    ∀ (s : AppState) (j : Nat),
      hasKey (replayLog s log).back j = hasKey s.back j := by
  induction log with
  | nil => intro s j; rfl
  | cons r rest ih =>
    intro s j
    exact (ih (applyLogRecord s r) j).trans (applyLogRecord_back_hasKey s r j)

theorem applyLogRecord_self (s : AppState) (r : AuditRecord)
    (h : hasKey (all_doors s) r.door = true) (hY : r.truck_type ≠ "") :
    alookup (all_doors (applyLogRecord s r)) r.door = some r.location ∧
    alookup (applyLogRecord s r).door_truck_type r.door = some r.truck_type := by
  unfold all_doors at h ⊢
  rw [hasKey_append] at h
  cases hf : hasKey s.front r.door with
  | true =>
    constructor
    · have h1 : (applyLogRecord s r).front = setKey s.front r.door r.location := by
        simp [applyLogRecord, hf]
      have h2 : (applyLogRecord s r).back = s.back := by
        simp [applyLogRecord, hf]
      rw [h1, h2, alookup_append, alookup_setKey, hf]
      simp
    · have h3 : (applyLogRecord s r).door_truck_type =
          ovSet s.door_truck_type r.door r.truck_type := by
        simp [applyLogRecord, hf, hY]
      rw [h3, alookup_ovSet]
      simp
  | false =>
    have hbk : hasKey s.back r.door = true := by
      rw [hf] at h
      simpa using h
    constructor
    · have h1 : (applyLogRecord s r).front = s.front := by
        simp [applyLogRecord, hf]
      have h2 : (applyLogRecord s r).back = setKey s.back r.door r.location := by
        simp [applyLogRecord, hf, hbk]
      rw [h1, h2, alookup_append, alookup_eq_none_of_hasKey_false _ _ hf]
      simp [alookup_setKey, hbk]
    · have h3 : (applyLogRecord s r).door_truck_type =
          ovSet s.door_truck_type r.door r.truck_type := by
        simp [applyLogRecord, hf, hbk, hY]
      rw [h3, alookup_ovSet]
      simp

/-! ### String lemmas for the blank classification -/

theorem dropWhile_head_false {α : Type} (p : α → Bool) :
    ∀ (l : List α) (a : α) (t : List α), l.dropWhile p = a :: t → p a = false := by
  intro l
  induction l with
  | nil =>
    intro a t h
    simp [List.dropWhile] at h
  | cons b rest ih =>
    intro a t h
    by_cases hb : p b = true
    · rw [List.dropWhile_cons_of_pos hb] at h
      exact ih a t h
    · rw [List.dropWhile_cons_of_neg hb] at h
      obtain ⟨hba, -⟩ := List.cons.inj h
      rw [← hba]
      simpa using hb

theorem exists_append_dropWhile {α : Type} (p : α → Bool) :
    ∀ l : List α, ∃ pre, pre ++ l.dropWhile p = l := by
  intro l
  induction l with
  | nil => exact ⟨[], rfl⟩
  | cons b rest ih =>
    by_cases hb : p b = true
    · obtain ⟨pre, hpre⟩ := ih
      refine ⟨b :: pre, ?_⟩
      rw [List.dropWhile_cons_of_pos hb, List.cons_append, hpre]
    · exact ⟨[], by rw [List.dropWhile_cons_of_neg hb]; rfl⟩

theorem pyStripList_head_not_space (l : List Char) (a : Char) (t : List Char)
    (h : pyStripList l = a :: t) : pyIsSpace a = false := by
  unfold pyStripList at h
  obtain ⟨pre, hpre⟩ :=
    exists_append_dropWhile pyIsSpace (l.dropWhile pyIsSpace).reverse
  have hy : l.dropWhile pyIsSpace = a :: (t ++ pre.reverse) := by
    have h2 : (l.dropWhile pyIsSpace).reverse.reverse =
        (pre ++ (l.dropWhile pyIsSpace).reverse.dropWhile pyIsSpace).reverse := by
      rw [hpre]
    rw [List.reverse_reverse, List.reverse_append, h] at h2
    simpa using h2
  exact dropWhile_head_false pyIsSpace l a _ hy

theorem removeSpaces_pyStrip_ne_nil (s : String) (h : ¬ pyStrip s = "") :
    ¬ (removeSpaces (pyStrip s)).toList = [] := by
  cases hsl : pyStripList s.toList with
  | nil =>
    exfalso
    apply h
    have : pyStrip s = String.mk [] := by
      rw [pyStrip, hsl]
    rw [this]
  | cons a t =>
    have ha := pyStripList_head_not_space s.toList a t hsl
    have ha3 : ¬ (a = ' ') := by
      intro he
      rw [he] at ha
      exact absurd ha (by decide)
    have hlist : (removeSpaces (pyStrip s)).toList = (a :: t).filter (fun c => c != ' ') := by
      rw [pyStrip, hsl]
      rfl
    rw [hlist, List.filter_cons]
    simp [ha3]

/-! ### Claim theorems -/

/-- C1: for every door `d` and location string `loc`, `get_truck_for_door`
returns "" when `loc` is blank regardless of overrides; otherwise a
door-scoped override entry wins even when the normalized location maps to a
different truck; otherwise the (possibly empty) `truck_by_location` entry
for the normalized location; otherwise the default truck "AZNG". -/
theorem claim1_resolve_truck_precedence (ov : List (Nat × String)) (d : Nat)
    (loc : String) :
    (is_blank_loc loc = true → get_truck_for_door ov d loc = "") ∧
    (is_blank_loc loc = false → ∀ t, alookup ov d = some t →
      get_truck_for_door ov d loc = t) ∧
    (is_blank_loc loc = false → alookup ov d = none →
      ∀ v, alookup truck_by_location (normalize_loc loc) = some v →
        get_truck_for_door ov d loc = v) ∧
    (is_blank_loc loc = false → alookup ov d = none →
      alookup truck_by_location (normalize_loc loc) = none →
        get_truck_for_door ov d loc = DEFAULT_TRUCK) := by
  refine ⟨?_, ?_, ?_, ?_⟩
  · intro hb
    simp [get_truck_for_door, hb]
  · intro hb t ht
    simp [get_truck_for_door, hb, ht]
  · intro hb ho v hv
    simp [get_truck_for_door, hb, ho, hv]
  · intro hb ho hv
    simp [get_truck_for_door, hb, ho, hv]

/-- Witness for C1: door 123 with override "XPOU" at "XME1" (which maps to
"JBHU") resolves to "XPOU"; a blank door resolves to "" despite an
override; mapped and default cases on concrete doors. -/
theorem claim1_resolve_truck_precedence_witness :
    get_truck_for_door [(123, "XPOU")] 123 "XME1" = "XPOU" ∧
    get_truck_for_door [(127, "JBHU")] 127 "—" = "" ∧
    get_truck_for_door [] 123 "XME1" = "JBHU" ∧
    get_truck_for_door [] 8 "XMD2" = "AZNG" :=
  ⟨(claim1_resolve_truck_precedence [(123, "XPOU")] 123 "XME1").2.1
      (by decide) "XPOU" (by decide),
   (claim1_resolve_truck_precedence [(127, "JBHU")] 127 "—").1 (by decide),
   (claim1_resolve_truck_precedence [] 123 "XME1").2.2.1
      (by decide) (by decide) "JBHU" (by decide),
   (claim1_resolve_truck_precedence [] 8 "XMD2").2.2.2
      (by decide) (by decide) (by decide)⟩

/-- Counterexample for C2: on a non-blank existing door (door 1, "IND9")
with an override set, an unrecognized truck value "XXXX" (outside the enum,
not "AUTO") leaves the override in place; the claim says it is removed. -/
theorem claim2_unknown_truck_keeps_override :
    is_blank_loc "IND9" = false ∧
    ("XXXX" ∈ TRUCK_TYPES → False) ∧
    ("XXXX" = "AUTO" → False) ∧
    alookup (all_doors (⟨seedFront, seedBack, [(1, "JBHU")]⟩ : AppState)) 1
      = some "IND9" ∧
    (override_truck ⟨seedFront, seedBack, [(1, "JBHU")]⟩ "1" "XXXX").state.door_truck_type
      = [(1, "JBHU")] := by
  decide

/-- C2 as amended: for an existing door with a non-blank location, a truck
argument normalizing to "AUTO" removes the door's override; a recognized
enum value sets it; any other value is a silent no-op that leaves the
override (and the whole state) unchanged. -/
theorem claim2_override_clear_set_noop (s : AppState)
    (doorText truckText loc : String)
    (hdig : str_isdigit (pyStrip doorText) = true)
    (hloc : alookup (all_doors s) (strToNat (pyStrip doorText)) = some loc)
    (hnb : is_blank_loc loc = false) :
    (pyUpper (pyStrip truckText) = "AUTO" →
      alookup (override_truck s doorText truckText).state.door_truck_type
        (strToNat (pyStrip doorText)) = none) ∧
    (pyUpper (pyStrip truckText) ∈ TRUCK_TYPES →
      alookup (override_truck s doorText truckText).state.door_truck_type
        (strToNat (pyStrip doorText)) = some (pyUpper (pyStrip truckText))) ∧
    (¬ pyUpper (pyStrip truckText) = "AUTO" →
      ¬ pyUpper (pyStrip truckText) ∈ TRUCK_TYPES →
      override_truck s doorText truckText = ⟨s, [], []⟩) := by
  refine ⟨?_, ?_, ?_⟩
  · intro hA
    simp [override_truck, hdig, hloc, hnb, hA, alookup_ovRemove]
  · intro hT
    have hA : ¬ pyUpper (pyStrip truckText) = "AUTO" := by
      intro he
      rw [he] at hT
      exact absurd hT (by decide)
    simp [override_truck, hdig, hloc, hnb, hA, hT, alookup_ovSet]
  · intro hA hT
    simp [override_truck, hdig, hloc, hnb, hA, hT]

/-- Witness for C2 (amended): door 123 ("XME1", non-blank) with override
"AZNG": " Auto " clears it, "xpou" sets "XPOU", "ZZZ" is a no-op. -/
theorem claim2_override_clear_set_noop_witness :
    alookup (override_truck ⟨seedFront, seedBack, [(123, "AZNG")]⟩
      "123" " Auto ").state.door_truck_type 123 = none ∧
    alookup (override_truck ⟨seedFront, seedBack, [(123, "AZNG")]⟩
      "123" "xpou").state.door_truck_type 123 = some "XPOU" ∧
    override_truck ⟨seedFront, seedBack, [(123, "AZNG")]⟩ "123" "ZZZ"
      = ⟨⟨seedFront, seedBack, [(123, "AZNG")]⟩, [], []⟩ :=
  ⟨(claim2_override_clear_set_noop ⟨seedFront, seedBack, [(123, "AZNG")]⟩
      "123" " Auto " "XME1" (by decide) (by decide) (by decide)).1 (by decide),
   (claim2_override_clear_set_noop ⟨seedFront, seedBack, [(123, "AZNG")]⟩
      "123" "xpou" "XME1" (by decide) (by decide) (by decide)).2.1 (by decide),
   (claim2_override_clear_set_noop ⟨seedFront, seedBack, [(123, "AZNG")]⟩
      "123" "ZZZ" "XME1" (by decide) (by decide) (by decide)).2.2
      (by decide) (by decide)⟩

/-- Counterexample for C3: "Empty Door" trims to itself and contains a
non-alphanumeric character (the space), so the claim classifies it blank;
the code removes spaces before the alphanumeric test and returns false. -/
theorem claim3_embedded_space_not_blank :
    pyStrip "Empty Door" = "Empty Door" ∧
    (∃ c ∈ "Empty Door".toList, pyIsAlnum c = false) ∧
    is_blank_loc "Empty Door" = false := by
  decide

/-- C3 as amended: `is_blank_loc code` is true iff the trimmed code is
empty, or the trimmed code with all spaces removed contains a character
that is not alphanumeric.  (Spaces are removed before the test, so a
location with embedded spaces between alphanumeric characters is NOT
blank.) -/
theorem claim3_blank_characterization (code : String) :
    is_blank_loc code = true ↔
      (pyStrip code = "" ∨
        ∃ c ∈ (removeSpaces (pyStrip code)).toList, pyIsAlnum c = false) := by
  by_cases h0 : pyStrip code = ""
  · simp [is_blank_loc, h0]
  · have hne := removeSpaces_pyStrip_ne_nil code h0
    have hbeq : (pyStrip code == "") = false := by
      simp [h0]
    simp only [is_blank_loc, hbeq, Bool.false_or, Bool.not_eq_true']
    simp only [str_isalnum, Bool.and_eq_false_iff]
    constructor
    · intro hh
      rcases hh with hh | hh
      · exfalso
        apply hne
        simpa using hh
      · right
        rw [List.all_eq_false] at hh
        obtain ⟨c, hc, hcp⟩ := hh
        exact ⟨c, hc, by simpa using hcp⟩
    · intro hh
      rcases hh with hh | hh
      · exact absurd hh h0
      · right
        rw [List.all_eq_false]
        obtain ⟨c, hc, hcp⟩ := hh
        exact ⟨c, hc, by simp [hcp]⟩

/-- C4 (spec-modelled): replaying an append log over the compiled-in seed
state applies last-record-per-door-wins: if the log contains an earlier
record (location A, truck X) for an existing door d and ends with a later
record (location B, truck Y) for d, the reconstructed board holds location
B and override Y for d. -/
theorem claim4_replay_last_record_wins (l : List AuditRecord) (d : Nat)
    (A X B Y : String)
    (_hmem : (⟨d, A, X⟩ : AuditRecord) ∈ l)
    (hdoor : hasKey (all_doors seedState) d = true)
    (hY : ¬ Y = "") :
    alookup (all_doors (replayLog seedState (l ++ [⟨d, B, Y⟩]))) d = some B ∧
    alookup (replayLog seedState (l ++ [⟨d, B, Y⟩])).door_truck_type d
      = some Y := by
  have hsplit : replayLog seedState (l ++ [⟨d, B, Y⟩]) =
      applyLogRecord (replayLog seedState l) ⟨d, B, Y⟩ := by
    rw [replayLog, List.foldl_append]
    rfl
  rw [hsplit]
  have hdoor2 : hasKey (all_doors (replayLog seedState l)) d = true := by
    unfold all_doors at hdoor ⊢
    rw [hasKey_append, replayLog_front_hasKey, replayLog_back_hasKey]
    rw [hasKey_append] at hdoor
    exact hdoor
  exact applyLogRecord_self (replayLog seedState l) ⟨d, B, Y⟩ hdoor2 hY

/-- Witness for C4: a two-record log for door 1 (earlier "ABCD"/"AZNU",
later "RDU2"/"JBHU") reconstructs location "RDU2" and override "JBHU". -/
theorem claim4_replay_last_record_wins_witness :
    alookup (all_doors (replayLog seedState
      ([⟨1, "ABCD", "AZNU"⟩] ++ [⟨1, "RDU2", "JBHU"⟩]))) 1 = some "RDU2" ∧
    alookup (replayLog seedState
      ([⟨1, "ABCD", "AZNU"⟩] ++ [⟨1, "RDU2", "JBHU"⟩])).door_truck_type 1
      = some "JBHU" :=
  claim4_replay_last_record_wins [⟨1, "ABCD", "AZNU"⟩] 1 "ABCD" "AZNU"
    "RDU2" "JBHU" (by decide) (by decide) (by decide)

/-- C5: for an existing door, an update whose raw location trims to one of
"", "—", "---", "----" stores the canonical em-dash blank in the owning
partition, removes any override on the door, and the door then reads back
as location "—" with resolved truck "". -/
theorem claim5_blank_update_canonical (s : AppState) (doorText raw : String)
    (hdig : str_isdigit (pyStrip doorText) = true)
    (hdoor : hasKey (all_doors s) (strToNat (pyStrip doorText)) = true)
    (hraw : pyStrip raw = "" ∨ pyStrip raw = "—" ∨ pyStrip raw = "---" ∨
      pyStrip raw = "----") :
    alookup (all_doors (update_location s doorText raw).state)
      (strToNat (pyStrip doorText)) = some "—" ∧
    (hasKey s.front (strToNat (pyStrip doorText)) = true →
      alookup (update_location s doorText raw).state.front
        (strToNat (pyStrip doorText)) = some "—") ∧
    (hasKey s.front (strToNat (pyStrip doorText)) = false →
      alookup (update_location s doorText raw).state.back
        (strToNat (pyStrip doorText)) = some "—") ∧
    alookup (update_location s doorText raw).state.door_truck_type
      (strToNat (pyStrip doorText)) = none ∧
    get_truck_for_door (update_location s doorText raw).state.door_truck_type
      (strToNat (pyStrip doorText)) "—" = "" := by
  have hcanon : canonLoc (normalize_loc raw) = "—" := by
    rcases hraw with h | h | h | h <;>
      · simp only [normalize_loc]
        rw [h]
        decide
  have hstate : (update_location s doorText raw).state =
      apply_update s (strToNat (pyStrip doorText)) "—" := by
    rw [update_location_state, hdig, hdoor, hcanon]
    simp
  have hbl : is_blank_loc "—" = true := by decide
  refine ⟨?_, ?_, ?_, ?_, ?_⟩
  · rw [hstate, apply_update_alldoors s _ _ hdoor]
    simp
  · intro hf
    rw [hstate]
    have h1 : (apply_update s (strToNat (pyStrip doorText)) "—").front =
        setKey s.front (strToNat (pyStrip doorText)) "—" := by
      simp [apply_update, hf]
    rw [h1, alookup_setKey, hf]
    simp
  · intro hf
    rw [hstate]
    have hbk : hasKey s.back (strToNat (pyStrip doorText)) = true := by
      unfold all_doors at hdoor
      rw [hasKey_append, hf] at hdoor
      simpa using hdoor
    have h1 : (apply_update s (strToNat (pyStrip doorText)) "—").back =
        setKey s.back (strToNat (pyStrip doorText)) "—" := by
      simp [apply_update, hf]
    rw [h1, alookup_setKey, hbk]
    simp
  · rw [hstate, apply_update_ov]
    simp [hbl]
  · simp [get_truck_for_door, hbl]

/-- Witness for C5: door 1 with a prior override "JBHU", raw location
" --- ": reads back as "—" in front, override gone, resolved truck "". -/
theorem claim5_blank_update_canonical_witness :
    alookup (all_doors (update_location ⟨seedFront, seedBack, [(1, "JBHU")]⟩
      "1" " --- ").state) 1 = some "—" ∧
    alookup (update_location ⟨seedFront, seedBack, [(1, "JBHU")]⟩
      "1" " --- ").state.door_truck_type 1 = none ∧
    get_truck_for_door (update_location ⟨seedFront, seedBack, [(1, "JBHU")]⟩
      "1" " --- ").state.door_truck_type 1 "—" = "" :=
  ⟨(claim5_blank_update_canonical ⟨seedFront, seedBack, [(1, "JBHU")]⟩
      "1" " --- " (by decide) (by decide) (by decide)).1,
   (claim5_blank_update_canonical ⟨seedFront, seedBack, [(1, "JBHU")]⟩
      "1" " --- " (by decide) (by decide) (by decide)).2.2.2.1,
   (claim5_blank_update_canonical ⟨seedFront, seedBack, [(1, "JBHU")]⟩
      "1" " --- " (by decide) (by decide) (by decide)).2.2.2.2⟩

/-- C6: starting from the seed state (empty override map), every sequence
of update-location and override-truck calls preserves the invariant that no
door whose stored location is blank has an entry in the override map. -/
theorem claim6_blank_never_overridden (ops : List Op) :
    blankNoOverride (runOps seedState ops) :=
  blankNoOverride_runOps ops seedState seedState_blankNoOverride

/-- Counterexample for C7: the door text " 1 " is not a string of digits
(it has surrounding spaces), yet the call is not a no-op: the handler trims
before the digit test, so it mutates door 1 and appends an audit record. -/
theorem claim7_untrimmed_door_mutates :
    str_isdigit " 1 " = false ∧
    ((update_location seedState " 1 " "RDU2").state = seedState → False) ∧
    ((update_location seedState " 1 " "RDU2").audit = [] → False) := by
  decide

/-- C7 as amended: a call to either entry point whose TRIMMED door text is
not a string of digits, or whose parsed door number is not a key of either
partition, is a silent no-op: unchanged state, no audit record, no durable
upsert. -/
theorem claim7_invalid_door_noop (s : AppState) (doorText valueText : String)
    (h : str_isdigit (pyStrip doorText) = false ∨
      hasKey (all_doors s) (strToNat (pyStrip doorText)) = false) :
    update_location s doorText valueText = ⟨s, [], []⟩ ∧
    override_truck s doorText valueText = ⟨s, [], []⟩ := by
  rcases h with h | h
  · constructor <;> simp [update_location, override_truck, h]
  · cases hd : str_isdigit (pyStrip doorText) with
    | false => constructor <;> simp [update_location, override_truck, hd]
    | true =>
      have hl := alookup_eq_none_of_hasKey_false _ _ h
      constructor
      · simp [update_location, hd, h]
      · simp [override_truck, hd, hl]

/-- Witness for C7 (amended): door text "7a" (trims to itself, not digits)
is a no-op for both entry points. -/
theorem claim7_invalid_door_noop_witness :
    update_location seedState "7a" "RDU2" = ⟨seedState, [], []⟩ ∧
    override_truck seedState "7a" "JBHU" = ⟨seedState, [], []⟩ :=
  ⟨(claim7_invalid_door_noop seedState "7a" "RDU2" (Or.inl (by decide))).1,
   (claim7_invalid_door_noop seedState "7a" "JBHU" (Or.inl (by decide))).2⟩

/-- C8: both mutation entry points are idempotent on the board state: the
front partition, back partition and override map after two identical calls
equal those after one. -/
theorem claim8_mutators_idempotent (s : AppState) (doorText valueText : String) :
    (update_location (update_location s doorText valueText).state
      doorText valueText).state = (update_location s doorText valueText).state ∧
    (override_truck (override_truck s doorText valueText).state
      doorText valueText).state = (override_truck s doorText valueText).state :=
  ⟨update_location_idem s doorText valueText,
   override_truck_idem s doorText valueText⟩

/-- C9: with no durable store and no log file, the snapshot download serves
exactly the header line "door,location,truck_type,updated_at" (and a
newline), creating the log file with that same content as its only side
effect; there are no data lines (the payload contains no further newline). -/
theorem claim9_empty_export_header_only :
    download_csv_no_store none = (CSV_HEADER, CSV_HEADER) ∧
    CSV_HEADER = "door,location,truck_type,updated_at" ++ "\n" ∧
    ('\n' ∈ "door,location,truck_type,updated_at".toList → False) := by
  refine ⟨rfl, by decide, by decide⟩

/-- Helper for C10: `override_truck` consults its truck argument only
through trim-then-uppercase, so two arguments with the same normalized form
produce identical results (state, audit and durable effects). -/
theorem override_truck_norm_congr (s : AppState) (d t1 t2 : String)
    (h : pyUpper (pyStrip t1) = pyUpper (pyStrip t2)) :
    override_truck s d t1 = override_truck s d t2 := by
  simp only [override_truck, h]

/-- C10: `override_truck` normalizes the truck argument by trimming and
upper-casing before any comparison: arguments with equal normalized forms
behave identically, and in particular "auto" and " Auto " behave exactly
like the literal "AUTO", and "jbhu" like "JBHU". -/
theorem claim10_truck_normalization (s : AppState) (d t1 t2 : String)
    (h : pyUpper (pyStrip t1) = pyUpper (pyStrip t2)) :
    override_truck s d t1 = override_truck s d t2 ∧
    override_truck s d "auto" = override_truck s d "AUTO" ∧
    override_truck s d " Auto " = override_truck s d "AUTO" ∧
    override_truck s d "jbhu" = override_truck s d "JBHU" :=
  ⟨override_truck_norm_congr s d t1 t2 h,
   override_truck_norm_congr s d "auto" "AUTO" (by decide),
   override_truck_norm_congr s d " Auto " "AUTO" (by decide),
   override_truck_norm_congr s d "jbhu" "JBHU" (by decide)⟩

/-- Witness for C10: on the seed state and door 123, "auto" behaves like
"AUTO". -/
theorem claim10_truck_normalization_witness :
    override_truck seedState "123" "auto" = override_truck seedState "123" "AUTO" :=
  (claim10_truck_normalization seedState "123" "auto" "AUTO" (by decide)).1
